import Mathlib

/-!
Shallow embedding of the `_watchdog_fsevents` C extension module
(`watchdog_fsevents.c`): the `NativeEvent` flag predicates, the module-level
`watch_to_stream` and `thread_to_run_loop` dictionaries, and the module
operations `add_watch`, `remove_watch`, `read_events`, `flush_events` and
`stop`, together with the FSEvents stream callback and the path-conversion
helper `PyString_AsUTF8EncodedCFStringRef`.

Machine integers are modelled as `Nat`/`Int`; Python dictionaries as
association lists with first-match lookup; CoreFoundation / FSEvents calls
that touch kernel state are recorded in an explicit effect log; the points
at which the C code can fail for external reasons (allocation, stream
creation, `FSEventStreamStart`) are driven by an explicit oracle record.
-/

namespace Watchdog

/-! ## FSEvents flag constants (values from `FSEvents.h`) -/

def kFSEventStreamEventFlagItemCreated : Nat := 0x00000100
def kFSEventStreamEventFlagItemRemoved : Nat := 0x00000200
def kFSEventStreamEventFlagItemRenamed : Nat := 0x00000800

/-- The array `coalesced_masks` from `NativeEventTypeIsCoalesced`:
the three pairwise unions of the Created/Removed/Renamed item flags. -/
def coalesced_masks : List Nat :=
  [kFSEventStreamEventFlagItemCreated ||| kFSEventStreamEventFlagItemRemoved,
   kFSEventStreamEventFlagItemCreated ||| kFSEventStreamEventFlagItemRenamed,
   kFSEventStreamEventFlagItemRemoved ||| kFSEventStreamEventFlagItemRenamed]

/-- `NativeEventTypeIsCoalesced`: true when one of the `coalesced_masks`
is fully contained in the event's flags word
(`(self->flags & coalesced_masks[i]) == coalesced_masks[i]`). -/
def NativeEventTypeIsCoalesced (flags : Nat) : Bool :=
  coalesced_masks.any (fun m => (flags &&& m) == m)

/-- The `FLAG_PROPERTY` macro: a single-flag property is true when
`self->flags & flag` is non-zero. -/
def FLAG_PROPERTY (flags flag : Nat) : Bool := flags &&& flag != 0

def NativeEventTypeIsCreated (flags : Nat) : Bool :=
  FLAG_PROPERTY flags kFSEventStreamEventFlagItemCreated

def NativeEventTypeIsRemoved (flags : Nat) : Bool :=
  FLAG_PROPERTY flags kFSEventStreamEventFlagItemRemoved

def NativeEventTypeIsRenamed (flags : Nat) : Bool :=
  FLAG_PROPERTY flags kFSEventStreamEventFlagItemRenamed

/-! ### Bit-level helper lemmas -/

lemma testBit_lor_two_pow (i j k : Nat) :
    ((2 ^ i ||| 2 ^ j).testBit k) = (decide (i = k) || decide (j = k)) := by
  rw [Nat.testBit_lor, Nat.testBit_two_pow, Nat.testBit_two_pow]

lemma land_lor_two_pow_eq_iff (flags i j : Nat) :
    ((flags &&& (2 ^ i ||| 2 ^ j)) = (2 ^ i ||| 2 ^ j)) ↔
      (flags.testBit i = true ∧ flags.testBit j = true) := by
  constructor
  · intro h
    constructor
    · have hi := congrArg (fun n => n.testBit i) h
      simp only [Nat.testBit_land, testBit_lor_two_pow] at hi
      simpa using hi
    · have hj := congrArg (fun n => n.testBit j) h
      simp only [Nat.testBit_land, testBit_lor_two_pow] at hj
      simpa using hj
  · rintro ⟨hi, hj⟩
    apply Nat.eq_of_testBit_eq
    intro k
    rw [Nat.testBit_land, testBit_lor_two_pow]
    by_cases hik : i = k
    · subst hik; simpa using hi
    · by_cases hjk : j = k
      · subst hjk; simp [hj]
      · simp [hik, hjk]

lemma land_lor_two_pow_beq (flags i j : Nat) :
    ((flags &&& (2 ^ i ||| 2 ^ j)) == (2 ^ i ||| 2 ^ j)) =
      (flags.testBit i && flags.testBit j) := by
  rw [Bool.eq_iff_iff, beq_iff_eq, Bool.and_eq_true, land_lor_two_pow_eq_iff]

lemma land_two_pow_ne_zero (flags i : Nat) :
    (flags &&& 2 ^ i != 0) = flags.testBit i := by
  rw [Nat.and_two_pow]
  rcases Bool.eq_false_or_eq_true (flags.testBit i) with h | h <;> simp [h]

/-! ## Python-level values and errors -/

/-- The exception classes the module raises. -/
inductive PyErr
  | runtimeError
  | systemError
  | memoryError
  | keyError
  | valueError
  | typeError
  | unicodeDecodeError
  deriving DecidableEq

/-! ## Module-level state

`watch_to_stream` and `thread_to_run_loop` are module-level Python
dictionaries. Watches, streams, threads and run loops are identified by
`Nat` ids; a dictionary is an association list with first-match lookup
(`PyDict_GetItem`), overwrite insertion (`PyDict_SetItem`) and removal
(`PyDict_DelItem`). -/

abbrev PyDict := List (Nat × Nat)

/-- `PyDict_GetItem`: first value stored under the key, if any. -/
def lookupKey (l : PyDict) (k : Nat) : Option Nat :=
  (l.find? (fun p => p.1 == k)).map (·.2)

/-- `PyDict_Contains`. -/
def hasKey (l : PyDict) (k : Nat) : Bool := (lookupKey l k).isSome

/-- `PyDict_DelItem`: drops every binding of the key (in reachable states
keys are unique, so at most one binding is dropped). -/
def eraseKey (l : PyDict) (k : Nat) : PyDict := l.filter (fun p => p.1 != k)

/-- `PyDict_SetItem`: bind the key to the value, replacing any old binding. -/
def setKey (l : PyDict) (k v : Nat) : PyDict := (k, v) :: eraseKey l k

/-- The module-level mutable state: the two dictionaries plus a source of
fresh stream identities (each successful `FSEventStreamCreate` yields a new
stream object). -/
structure ModuleState where
  watch_to_stream : PyDict
  thread_to_run_loop : PyDict
  nextStream : Nat
  deriving DecidableEq

/-- State after `watchdog_module_init`: both dictionaries empty. -/
def initState : ModuleState := { watch_to_stream := [], thread_to_run_loop := [], nextStream := 0 }

/-- Calls made against the CoreFoundation / FSEvents kernel API, recorded as
an effect log.  A `none` argument records that the C call received a `NULL`
pointer (undefined behaviour for the stream calls). -/
inductive StreamOp
  | created (s : Nat)
  | scheduled (s rl : Nat)
  | started (s : Nat)
  | stopped (s : Option Nat)
  | invalidated (s : Option Nat)
  | released (s : Option Nat)
  | stoppedRunLoop (rl : Nat)
  | flushed (s : Option Nat)
  deriving DecidableEq

/-- Externally determined outcomes of the fallible calls inside
`watchdog_add_watch`: `PyMem_New` for the callback info, stream creation
(which itself can fail in path conversion or `FSEventStreamCreate`),
`PyCapsule_New`, and `FSEventStreamStart`. -/
structure Env where
  allocInfoOk : Bool
  createStreamOk : Bool
  capsuleOk : Bool
  startOk : Bool
  deriving DecidableEq

/-- An environment in which every external call succeeds. -/
def envAllOk : Env :=
  { allocInfoOk := true, createStreamOk := true, capsuleOk := true, startOk := true }

/-- Result of a module call that returns `None` on success: either `Py_None`,
or a `NULL` return with the exception that was set. -/
inductive CallResult
  | ok
  | error (e : PyErr)
  deriving DecidableEq

/-! ## `watchdog_add_watch` (current revision, `watchdog_fsevents.c`)

Transcribed branch by branch:
1. already-scheduled check: `PyDict_Contains(watch_to_stream, watch) == 1`
   raises `RuntimeError`;
2. `PyMem_New` failure raises `SystemError`;
3. `watchdog_FSEventStreamCreate` failure frees the info struct and raises
   `RuntimeError`;
4. `PyCapsule_New` failure frees the info struct, invalidates and releases
   the stream, and returns `NULL` (capsule creation set `MemoryError`);
5. otherwise the capsule is stored in `watch_to_stream`, the stream is
   scheduled on the emitter thread's run loop (or the current one), and
   `FSEventStreamStart` is attempted: on failure the stream is invalidated
   and released and `SystemError` is raised — the `watch_to_stream` entry
   is NOT removed; on success `None` is returned. -/
def watchdog_add_watch (env : Env) (st : ModuleState)
    (emitter_thread watch current_run_loop : Nat) :
    ModuleState × CallResult × List StreamOp :=
  if hasKey st.watch_to_stream watch then
    (st, .error .runtimeError, [])
  else if !env.allocInfoOk then
    (st, .error .systemError, [])
  else if !env.createStreamOk then
    (st, .error .runtimeError, [])
  else
    let s := st.nextStream
    if !env.capsuleOk then
      (st, .error .memoryError, [.created s, .invalidated (some s), .released (some s)])
    else
      let st1 : ModuleState :=
        { st with watch_to_stream := setKey st.watch_to_stream watch s, nextStream := s + 1 }
      let rl := (lookupKey st.thread_to_run_loop emitter_thread).getD current_run_loop
      if !env.startOk then
        (st1, .error .systemError,
          [.created s, .scheduled s rl, .invalidated (some s), .released (some s)])
      else
        (st1, .ok, [.created s, .scheduled s rl, .started s])

/-! ## `watchdog_remove_watch` (current revision)

```
PyObject *value = PyDict_GetItem(watch_to_stream, watch);
PyDict_DelItem(watch_to_stream, watch);
FSEventStreamRef stream_ref = PyCapsule_GetPointer(value, NULL);
FSEventStreamStop(stream_ref); FSEventStreamInvalidate(stream_ref);
FSEventStreamRelease(stream_ref);
return Py_None;
```

When the watch has no entry, `PyDict_GetItem` returns `NULL`,
`PyDict_DelItem` sets `KeyError` (its -1 return is ignored),
`PyCapsule_GetPointer(NULL, NULL)` sets `ValueError` and returns `NULL`,
and the three stream calls receive `NULL`.  The returned `Bool` records
whether an exception is pending when `Py_None` is returned. -/
def watchdog_remove_watch (st : ModuleState) (watch : Nat) :
    ModuleState × Bool × List StreamOp :=
  let value := lookupKey st.watch_to_stream watch
  let st' : ModuleState := { st with watch_to_stream := eraseKey st.watch_to_stream watch }
  (st', value.isNone, [.stopped value, .invalidated value, .released value])

/-! ## `watchdog_read_events` (current revision) -/

/-- First phase of `watchdog_read_events`: when the emitter thread has no
run-loop entry, the current run loop is wrapped in a capsule and stored
under the thread. -/
def readEventsRegister (st : ModuleState) (emitter_thread current_run_loop : Nat) :
    ModuleState :=
  if (lookupKey st.thread_to_run_loop emitter_thread).isNone then
    { st with
      thread_to_run_loop := setKey st.thread_to_run_loop emitter_thread current_run_loop }
  else
    st

/-- `watchdog_read_events`: register the run loop if absent, block in
`CFRunLoopRun()` (modelled as returning once the loop is stopped), then
`PyDict_DelItem` the thread's entry. -/
def watchdog_read_events (st : ModuleState) (emitter_thread current_run_loop : Nat) :
    ModuleState :=
  let st1 := readEventsRegister st emitter_thread current_run_loop
  { st1 with thread_to_run_loop := eraseKey st1.thread_to_run_loop emitter_thread }

/-! ## `watchdog_stop`: the two revisions compared by C8 -/

/-- Observable outcome of a `stop` call: both revisions always return
`Py_None`; `errorSet` records a pending exception at return, `ops` the run
loops actually stopped. -/
structure StopResult where
  errorSet : Bool
  ops : List StreamOp
  deriving DecidableEq

/-- Current `watchdog_stop`: a missing `thread_to_run_loop` entry short
circuits to a clean `None` return; otherwise the capsule pointer is
extracted (no error for a valid capsule) and the run loop stopped. -/
def watchdog_stop (st : ModuleState) (emitter_thread : Nat) : StopResult :=
  match lookupKey st.thread_to_run_loop emitter_thread with
  | none => { errorSet := false, ops := [] }
  | some rl => { errorSet := false, ops := [.stoppedRunLoop rl] }

/-- Earlier `watchdog_stop` revision (`src/watchdog_fsevents.c`): the
capsule pointer is extracted unconditionally.  On a missing entry
`PyCapsule_GetPointer(NULL, NULL)` sets `ValueError` and yields `NULL`, the
`NULL` check skips the `CFRunLoopStop`, and `Py_None` is returned with the
exception still pending. -/
def watchdog_stop_old (st : ModuleState) (emitter_thread : Nat) : StopResult :=
  match lookupKey st.thread_to_run_loop emitter_thread with
  | none => { errorSet := true, ops := [] }
  | some rl => { errorSet := false, ops := [.stoppedRunLoop rl] }

/-! ## Reachable module states -/

/-- States reachable from `watchdog_module_init` by any sequence of
`add_watch`, `remove_watch` and `read_events` calls (`flush_events` and
`stop` do not modify the dictionaries, so they preserve reachability
trivially). -/
inductive Reachable : ModuleState → Prop
  | init : Reachable initState
  | add (env : Env) (t w rl : Nat) {st : ModuleState} :
      Reachable st → Reachable (watchdog_add_watch env st t w rl).1
  | remove (w : Nat) {st : ModuleState} :
      Reachable st → Reachable (watchdog_remove_watch st w).1
  | read (t rl : Nat) {st : ModuleState} :
      Reachable st → Reachable (watchdog_read_events st t rl)

/-! ## `watchdog_FSEventStreamCallback`

The kernel delivers `num_events` records; with the
`kFSEventStreamCreateFlagUseExtendedData | kFSEventStreamCreateFlagUseCFTypes`
flags each record is a `CFDictionary` holding the path
(`kFSEventStreamEventExtendedDataPathKey`, a `CFString`) and optionally the
file id (`kFSEventStreamEventExtendedFileIDKey`, a `CFNumber`), next to the
flags word and the 64-bit event id arrays. -/

/-- One delivered native record, as the callback reads it. -/
structure EventInfo where
  cfPath : Option String
  cfInode : Option Int
  flags : Nat
  eventId : Nat
  deriving DecidableEq

/-- `CFString_AsPyUnicode`: a `NULL` `CFStringRef` becomes the empty Python
string, otherwise the string's contents. -/
def CFString_AsPyUnicode (cf : Option String) : String := cf.getD ""

/-- `CFNumberRef_AsPyLong`: `CFNumberGetValue(..., kCFNumberSInt64Type, ...)`
into a `long` followed by `PyLong_FromLong` — exact on 64-bit signed
values. -/
def CFNumberRef_AsPyLong (n : Int) : Int := n

/-- `PyLong_FromLongLong(event_ids[i])`: the unsigned 64-bit
`FSEventStreamEventId` is passed through the signed `long long` parameter,
so values at or above `2 ^ 63` wrap to negative Python integers. -/
def PyLong_FromLongLong_u64 (n : Nat) : Int :=
  if n < 2 ^ 63 then (n : Int) else (n : Int) - 2 ^ 64

/-- The conversion loop of `watchdog_FSEventStreamCallback`: builds the four
Python lists (`PyList_New(num_events)` then `PyList_SET_ITEM` at index `i`),
with `Py_None` (`none`) for a missing file id. -/
def buildEventLists :
    List EventInfo → List String × List (Option Int) × List Nat × List Int
  | [] => ([], [], [], [])
  | e :: rest =>
    let (ps, ins, fls, ids) := buildEventLists rest
    (CFString_AsPyUnicode e.cfPath :: ps,
     (e.cfInode.map CFNumberRef_AsPyLong) :: ins,
     e.flags :: fls,
     PyLong_FromLongLong_u64 e.eventId :: ids)

/-- One `PyObject_CallFunction(python_callback, "OOOO", ...)` invocation. -/
structure CallbackInvocation where
  event_paths : List String
  event_inodes : List (Option Int)
  event_flags : List Nat
  event_ids : List Int
  deriving DecidableEq

/-- `watchdog_FSEventStreamCallback` for one delivered batch (allocations
succeeding): the list of Python-callback invocations it performs. -/
def watchdog_FSEventStreamCallback (events : List EventInfo) :
    List CallbackInvocation :=
  let (ps, ins, fls, ids) := buildEventLists events
  [{ event_paths := ps, event_inodes := ins, event_flags := fls, event_ids := ids }]

/-! ## `PyString_AsUTF8EncodedCFStringRef`

Paths are modelled at the byte level.  A Python `str` is carried as its
UTF-8 encoding (the bytes `PyUnicode_AsUTF8String` yields); a `bytes`
object as its contents. -/

/-- A UTF-8 continuation byte `10xxxxxx`. -/
def isCont (b : Nat) : Bool := 0x80 ≤ b && b ≤ 0xBF

/-- Strict UTF-8 validity (RFC 3629: no overlong forms, no surrogates, no
code points above `U+10FFFF`) — the check CPython's strict UTF-8 codec and
`CFStringCreateWithCString(..., kCFStringEncodingUTF8)` perform. -/
def validUTF8 (l : List Nat) : Bool :=
  match l with
  | [] => true
  | b :: rest =>
    if b ≤ 0x7F then validUTF8 rest
    else if 0xC2 ≤ b && b ≤ 0xDF then
      match rest with
      | c1 :: rest2 => isCont c1 && validUTF8 rest2
      | [] => false
    else if b == 0xE0 then
      match rest with
      | c1 :: c2 :: rest2 => (0xA0 ≤ c1 && c1 ≤ 0xBF) && (isCont c2 && validUTF8 rest2)
      | _ => false
    else if (0xE1 ≤ b && b ≤ 0xEC) || (0xEE ≤ b && b ≤ 0xEF) then
      match rest with
      | c1 :: c2 :: rest2 => isCont c1 && (isCont c2 && validUTF8 rest2)
      | _ => false
    else if b == 0xED then
      match rest with
      | c1 :: c2 :: rest2 => (0x80 ≤ c1 && c1 ≤ 0x9F) && (isCont c2 && validUTF8 rest2)
      | _ => false
    else if b == 0xF0 then
      match rest with
      | c1 :: c2 :: c3 :: rest2 =>
        (0x90 ≤ c1 && c1 ≤ 0xBF) && (isCont c2 && (isCont c3 && validUTF8 rest2))
      | _ => false
    else if 0xF1 ≤ b && b ≤ 0xF3 then
      match rest with
      | c1 :: c2 :: c3 :: rest2 =>
        isCont c1 && (isCont c2 && (isCont c3 && validUTF8 rest2))
      | _ => false
    else if b == 0xF4 then
      match rest with
      | c1 :: c2 :: c3 :: rest2 =>
        (0x80 ≤ c1 && c1 ≤ 0x8F) && (isCont c2 && (isCont c3 && validUTF8 rest2))
      | _ => false
    else false

/-- `PyBytes_AS_STRING`: the C (NUL-terminated) view of a byte string —
everything up to the first NUL byte. -/
def cStringOf (bs : List Nat) : List Nat := bs.takeWhile (fun b => b != 0)

/-- `CFStringCreateWithCString(kCFAllocatorDefault, cstr,
kCFStringEncodingUTF8)`: a new `CFString` with the C string's bytes, or
`NULL` when they are not valid UTF-8. -/
def CFStringCreateWithCString (cstr : List Nat) : Option (List Nat) :=
  if validUTF8 cstr then some cstr else none

/-- The Python object passed as a path argument: a `str` (carried as its
UTF-8 encoding), a `bytes` object, or anything else. -/
inductive PyObj
  | pystr (utf8 : List Nat)
  | pybytes (bs : List Nat)
  | other
  deriving DecidableEq

/-- Result of `PyString_AsUTF8EncodedCFStringRef`: a `CFStringRef` (its
UTF-8 contents), a `NULL` return with an exception set, or a `NULL`
`cf_string` returned without an exception (`CFStringCreateWithCString`
failure in the `str` branch). -/
inductive CFStringResult
  | ok (contents : List Nat)
  | err (e : PyErr) (msg : String)
  | nullNoErr
  deriving DecidableEq

/-- `PyString_AsUTF8EncodedCFStringRef`, branch by branch:
`PyUnicode_Check` → encode to UTF-8 and hand the bytes to
`CFStringCreateWithCString`; `PyBytes_Check` → strict-UTF-8 validation via
`PyUnicode_FromEncodedObject` (its result is discarded), then the raw bytes
go to `CFStringCreateWithCString`; anything else → `TypeError`. -/
def PyString_AsUTF8EncodedCFStringRef : PyObj → CFStringResult
  | .pystr utf8 =>
    match CFStringCreateWithCString (cStringOf utf8) with
    | some cf => .ok cf
    | none => .nullNoErr
  | .pybytes bs =>
    if validUTF8 bs then
      match CFStringCreateWithCString (cStringOf bs) with
      | some cf => .ok cf
      | none => .nullNoErr
    else
      .err .unicodeDecodeError ""
  | .other =>
    .err .typeError "Path to watch must be a string or a UTF-8 encoded bytes object."

/-! ## Dictionary lemmas -/

lemma lookupKey_cons (p : Nat × Nat) (tl : PyDict) (k : Nat) :
    lookupKey (p :: tl) k = if p.1 = k then some p.2 else lookupKey tl k := by
  by_cases h : p.1 = k <;> simp [lookupKey, List.find?_cons, h]

lemma lookupKey_eraseKey (l : PyDict) (k k2 : Nat) :
    lookupKey (eraseKey l k) k2 = if k2 = k then none else lookupKey l k2 := by
  induction l with
  | nil => by_cases h : k2 = k <;> simp [lookupKey, eraseKey, h]
  | cons p tl ih =>
    by_cases hpk : p.1 = k
    · have he : eraseKey (p :: tl) k = eraseKey tl k := by
        simp [eraseKey, List.filter_cons, hpk]
      rw [he, ih]
      by_cases hk2 : k2 = k
      · simp [hk2]
      · rw [if_neg hk2, if_neg hk2, lookupKey_cons,
          if_neg (fun hc : p.1 = k2 => hk2 (by rw [← hc, hpk]))]
    · have he : eraseKey (p :: tl) k = p :: eraseKey tl k := by
        simp [eraseKey, List.filter_cons, hpk]
      rw [he, lookupKey_cons]
      by_cases hpk2 : p.1 = k2
      · have hk2 : k2 ≠ k := fun hc => hpk (hpk2.trans hc)
        rw [if_pos hpk2, if_neg hk2, lookupKey_cons, if_pos hpk2]
      · rw [if_neg hpk2, ih]
        by_cases hk2 : k2 = k
        · simp [hk2]
        · rw [if_neg hk2, if_neg hk2, lookupKey_cons, if_neg hpk2]

lemma lookupKey_setKey_self (l : PyDict) (k v : Nat) :
    lookupKey (setKey l k v) k = some v := by
  simp [setKey, lookupKey_cons]

lemma lookupKey_setKey_other (l : PyDict) (k v k2 : Nat) (h : k2 ≠ k) :
    lookupKey (setKey l k v) k2 = lookupKey l k2 := by
  simp only [setKey, lookupKey_cons, if_neg (fun hc : k = k2 => h hc.symm),
    lookupKey_eraseKey, if_neg h]

lemma not_mem_keys_eraseKey (l : PyDict) (k : Nat) :
    k ∉ (eraseKey l k).map Prod.fst := by
  simp only [eraseKey, List.mem_map]
  rintro ⟨p, hp, rfl⟩
  simp [List.mem_filter] at hp

lemma nodupKeys_eraseKey (l : PyDict) (k : Nat)
    (h : (l.map Prod.fst).Nodup) : ((eraseKey l k).map Prod.fst).Nodup :=
  ((List.filter_sublist l).map Prod.fst).nodup h

lemma nodupKeys_setKey (l : PyDict) (k v : Nat)
    (h : (l.map Prod.fst).Nodup) : ((setKey l k v).map Prod.fst).Nodup := by
  simp only [setKey, List.map_cons]
  exact List.Nodup.cons (not_mem_keys_eraseKey l k) (nodupKeys_eraseKey l k h)

lemma cStringOf_of_no_nul (bs : List Nat) (h : (0 : Nat) ∉ bs) : cStringOf bs = bs := by
  induction bs with
  | nil => rfl
  | cons b tl ih =>
    simp only [List.mem_cons, not_or] at h
    have hb : (b != 0) = true := by simpa using fun hc => h.1 hc.symm
    simp [cStringOf, List.takeWhile_cons, hb]
    simpa [cStringOf] using ih h.2

/-- The conversion loop builds exactly the four per-field maps of the batch. -/
lemma buildEventLists_eq (events : List EventInfo) :
    buildEventLists events =
      (events.map (fun e => CFString_AsPyUnicode e.cfPath),
       events.map (fun e => e.cfInode.map CFNumberRef_AsPyLong),
       events.map (fun e => e.flags),
       events.map (fun e => PyLong_FromLongLong_u64 e.eventId)) := by
  induction events with
  | nil => rfl
  | cons e rest ih => simp [buildEventLists, ih]

/-- `watchdog_add_watch` never disturbs key uniqueness in
`watch_to_stream`. -/
lemma add_watch_preserves_nodupKeys (env : Env) (st : ModuleState)
    (t w rl : Nat) (h : (st.watch_to_stream.map Prod.fst).Nodup) :
    (((watchdog_add_watch env st t w rl).1).watch_to_stream.map Prod.fst).Nodup := by
  simp only [watchdog_add_watch]
  split_ifs <;> simp [h, nodupKeys_setKey]

/-! ## Claim theorems -/

/-- C1: a `NativeEvent`'s `is_coalesced` property is true exactly when the
flags word contains at least two of the three item flags Created, Removed
and Renamed, i.e. when one of the three pairwise combinations is fully
set. -/
theorem is_coalesced_iff_two_item_flags (flags : Nat) :
    NativeEventTypeIsCoalesced flags = true ↔
      ((NativeEventTypeIsCreated flags = true ∧ NativeEventTypeIsRemoved flags = true) ∨
       (NativeEventTypeIsCreated flags = true ∧ NativeEventTypeIsRenamed flags = true) ∨
       (NativeEventTypeIsRemoved flags = true ∧ NativeEventTypeIsRenamed flags = true)) := by
  have e1 : kFSEventStreamEventFlagItemCreated = 2 ^ 8 := by decide
  have e2 : kFSEventStreamEventFlagItemRemoved = 2 ^ 9 := by decide
  have e3 : kFSEventStreamEventFlagItemRenamed = 2 ^ 11 := by decide
  simp only [NativeEventTypeIsCoalesced, coalesced_masks, NativeEventTypeIsCreated,
    NativeEventTypeIsRemoved, NativeEventTypeIsRenamed, FLAG_PROPERTY, e1, e2, e3,
    List.any_cons, List.any_nil, Bool.or_false, land_lor_two_pow_beq,
    land_two_pow_ne_zero, Bool.or_eq_true, Bool.and_eq_true]

/-- C2, counterexample: scheduling the same watch twice is NOT an
idempotent success — the first `add_watch` returns `None`, the second one
raises `RuntimeError` ("Cannot add watch - it is already scheduled"). -/
theorem add_watch_twice_raises :
    (watchdog_add_watch envAllOk initState 0 7 0).2.1 = CallResult.ok ∧
    (watchdog_add_watch envAllOk (watchdog_add_watch envAllOk initState 0 7 0).1 0 7 0).2.1 =
      CallResult.error PyErr.runtimeError := by
  decide

/-- C2, amended: a second `add_watch` for an already-scheduled watch fails
with `RuntimeError`, leaves the module state exactly as it was, and
performs no stream operation (in particular no second stream is created or
registered for the watch). -/
theorem add_watch_on_scheduled_watch (env : Env) (st : ModuleState)
    (t w rl : Nat) (h : hasKey st.watch_to_stream w = true) :
    watchdog_add_watch env st t w rl = (st, CallResult.error PyErr.runtimeError, []) := by
  simp [watchdog_add_watch, h]

/-- C2 witness: the amended theorem applied after one successful
`add_watch`. -/
theorem add_watch_on_scheduled_watch_witness :
    hasKey ((watchdog_add_watch envAllOk initState 0 7 0).1).watch_to_stream 7 = true ∧
    watchdog_add_watch envAllOk (watchdog_add_watch envAllOk initState 0 7 0).1 0 7 0 =
      ((watchdog_add_watch envAllOk initState 0 7 0).1,
       CallResult.error PyErr.runtimeError, []) :=
  ⟨by decide,
   add_watch_on_scheduled_watch envAllOk (watchdog_add_watch envAllOk initState 0 7 0).1
     0 7 0 (by decide)⟩

/-- An environment in which only `FSEventStreamStart` fails. -/
def envStartFails : Env :=
  { allocInfoOk := true, createStreamOk := true, capsuleOk := true, startOk := false }

/-- C3 (code bug): when `FSEventStreamStart` returns false, `add_watch`
raises `SystemError` and releases the stream, but the `watch_to_stream`
entry created earlier in the call is left behind — the mapping is NOT as it
was before the call (the watch had no entry; afterwards it maps to the
already-released stream). -/
theorem add_watch_start_failure_leaves_entry :
    lookupKey initState.watch_to_stream 7 = none ∧
    (watchdog_add_watch envStartFails initState 0 7 0).2.1 =
      CallResult.error PyErr.systemError ∧
    lookupKey ((watchdog_add_watch envStartFails initState 0 7 0).1).watch_to_stream 7 =
      some 0 ∧
    (watchdog_add_watch envStartFails initState 0 7 0).2.2 =
      [StreamOp.created 0, StreamOp.scheduled 0 0,
       StreamOp.invalidated (some 0), StreamOp.released (some 0)] := by
  decide

/-- C4 (code bug): `remove_watch` on a watch with no `watch_to_stream`
entry does not succeed silently: the state is unchanged, but
`PyDict_DelItem` sets `KeyError` and `PyCapsule_GetPointer(NULL, NULL)`
sets `ValueError` (the `true` component records the pending exception at
return), and `FSEventStreamStop` / `FSEventStreamInvalidate` /
`FSEventStreamRelease` are all invoked on a `NULL` stream. -/
theorem remove_watch_missing_not_silent :
    watchdog_remove_watch initState 5 =
      (initState, true,
       [StreamOp.stopped none, StreamOp.invalidated none, StreamOp.released none]) := by
  decide

/-- C5, counterexample: the event-id list entry is produced by
`PyLong_FromLongLong`, which reinterprets the unsigned 64-bit event id as a
signed `long long`, so the id `2 ^ 63` reaches the Python callback as
`-2 ^ 63`, not as the event's 64-bit event id. -/
theorem callback_event_id_wraps :
    watchdog_FSEventStreamCallback [⟨some "a", none, 0, 2 ^ 63⟩] =
      [{ event_paths := ["a"], event_inodes := [none], event_flags := [0],
         event_ids := [-(2 ^ 63 : Int)] }] ∧
    (-(2 ^ 63 : Int)) ≠ ((2 ^ 63 : Nat) : Int) := by
  constructor
  · rfl
  · decide

/-- C5, amended: for a delivered batch of `N` native records the Python
callback is invoked exactly once, with four lists each of length `N`, whose
`i`-th elements are the `i`-th record's path converted to a Python string,
its inode as a Python integer (`None` when the kernel supplied no file id),
its flags word, and its 64-bit event id reinterpreted as a signed 64-bit
integer (equal to the event id whenever the id is below `2 ^ 63`), in
delivery order. -/
theorem callback_batch_conversion (events : List EventInfo) (i : Nat)
    (h : i < events.length) :
    watchdog_FSEventStreamCallback events =
      [{ event_paths := events.map (fun e => CFString_AsPyUnicode e.cfPath),
         event_inodes := events.map (fun e => e.cfInode.map CFNumberRef_AsPyLong),
         event_flags := events.map (fun e => e.flags),
         event_ids := events.map (fun e => PyLong_FromLongLong_u64 e.eventId) }] ∧
    (events.map (fun e => CFString_AsPyUnicode e.cfPath)).length = events.length ∧
    (events.map (fun e => e.cfInode.map CFNumberRef_AsPyLong)).length = events.length ∧
    (events.map (fun e => e.flags)).length = events.length ∧
    (events.map (fun e => PyLong_FromLongLong_u64 e.eventId)).length = events.length ∧
    (events.map (fun e => CFString_AsPyUnicode e.cfPath))[i]? =
      some (CFString_AsPyUnicode (events.get ⟨i, h⟩).cfPath) ∧
    (events.map (fun e => e.cfInode.map CFNumberRef_AsPyLong))[i]? =
      some ((events.get ⟨i, h⟩).cfInode.map CFNumberRef_AsPyLong) ∧
    (events.map (fun e => e.flags))[i]? = some (events.get ⟨i, h⟩).flags ∧
    (events.map (fun e => PyLong_FromLongLong_u64 e.eventId))[i]? =
      some (PyLong_FromLongLong_u64 (events.get ⟨i, h⟩).eventId) := by
  refine ⟨?_, by simp, by simp, by simp, by simp, ?_, ?_, ?_, ?_⟩
  · simp [watchdog_FSEventStreamCallback, buildEventLists_eq]
  all_goals simp [List.getElem?_map, List.getElem?_eq_getElem h, List.get_eq_getElem]

/-- C5 witness: the amended theorem at a concrete one-record batch. -/
theorem callback_batch_conversion_witness :
    watchdog_FSEventStreamCallback [⟨some "b", some 11, 5, 3⟩] =
      [{ event_paths := [CFString_AsPyUnicode (some "b")],
         event_inodes := [(some (11 : Int)).map CFNumberRef_AsPyLong],
         event_flags := [5],
         event_ids := [PyLong_FromLongLong_u64 3] }] :=
  (callback_batch_conversion [⟨some "b", some 11, 5, 3⟩] 0 (by decide)).1

/-- `read_events` never touches `watch_to_stream`. -/
lemma read_events_watch_to_stream (st : ModuleState) (t rl : Nat) :
    (watchdog_read_events st t rl).watch_to_stream = st.watch_to_stream := by
  unfold watchdog_read_events readEventsRegister
  by_cases hc : (lookupKey st.thread_to_run_loop t).isNone <;> simp [hc]

/-- C6: in every state reachable by `add_watch` / `remove_watch` /
`read_events` (with `stop` and `flush_events` leaving the dictionaries
untouched), the `watch_to_stream` dictionary has pairwise-distinct watch
keys — each scheduled watch maps to exactly one stream — and `add_watch`
on a watch that already has a stream leaves the state unchanged, so no
second stream is ever associated with it. -/
theorem one_stream_per_watch (st : ModuleState) (hr : Reachable st) :
    ((st.watch_to_stream.map Prod.fst).Nodup) ∧
    (∀ env t w rl, hasKey st.watch_to_stream w = true →
      (watchdog_add_watch env st t w rl).1 = st) := by
  refine ⟨?_, fun env t w rl hw => by simp [watchdog_add_watch, hw]⟩
  induction hr with
  | init => simp [initState]
  | add env t w rl hst ih => exact add_watch_preserves_nodupKeys env _ t w rl ih
  | remove w hst ih => exact nodupKeys_eraseKey _ w ih
  | read t rl hst ih => rw [read_events_watch_to_stream]; exact ih

/-- C6 witness: the invariant at the reachable state after one
`add_watch`. -/
theorem one_stream_per_watch_witness :
    ((((watchdog_add_watch envAllOk initState 0 7 0).1).watch_to_stream.map
      Prod.fst).Nodup) :=
  (one_stream_per_watch _ (Reachable.add envAllOk 0 7 0 Reachable.init)).1

/-- C7: `remove_watch` on a scheduled watch acts on that watch alone: it
returns cleanly (no pending exception), deletes the watch's
`watch_to_stream` entry, stops, invalidates and releases exactly that
watch's stream, and leaves every other watch's entry and the whole
`thread_to_run_loop` dictionary unchanged. -/
theorem remove_watch_frame (st : ModuleState) (w s : Nat)
    (h : lookupKey st.watch_to_stream w = some s) :
    (watchdog_remove_watch st w).1.thread_to_run_loop = st.thread_to_run_loop ∧
    (watchdog_remove_watch st w).1.nextStream = st.nextStream ∧
    lookupKey ((watchdog_remove_watch st w).1).watch_to_stream w = none ∧
    (∀ w2, w2 ≠ w →
      lookupKey ((watchdog_remove_watch st w).1).watch_to_stream w2 =
        lookupKey st.watch_to_stream w2) ∧
    (watchdog_remove_watch st w).2.1 = false ∧
    (watchdog_remove_watch st w).2.2 =
      [StreamOp.stopped (some s), StreamOp.invalidated (some s),
       StreamOp.released (some s)] := by
  refine ⟨rfl, rfl, ?_, ?_, ?_, ?_⟩
  · simp [watchdog_remove_watch, lookupKey_eraseKey]
  · intro w2 hw2
    simp [watchdog_remove_watch, lookupKey_eraseKey, hw2]
  · simp [watchdog_remove_watch, h]
  · simp [watchdog_remove_watch, h]

/-- C7 witness: the frame theorem at a concrete two-dictionary state. -/
theorem remove_watch_frame_witness :
    (watchdog_remove_watch ⟨[(4, 9)], [(1, 2)], 10⟩ 4).1.thread_to_run_loop = [(1, 2)] ∧
    lookupKey ((watchdog_remove_watch ⟨[(4, 9)], [(1, 2)], 10⟩ 4).1).watch_to_stream 4 =
      none ∧
    lookupKey ((watchdog_remove_watch ⟨[(4, 9)], [(1, 2)], 10⟩ 4).1).watch_to_stream 3 =
      lookupKey ([(4, 9)] : PyDict) 3 ∧
    (watchdog_remove_watch ⟨[(4, 9)], [(1, 2)], 10⟩ 4).2.1 = false ∧
    (watchdog_remove_watch ⟨[(4, 9)], [(1, 2)], 10⟩ 4).2.2 =
      [StreamOp.stopped (some 9), StreamOp.invalidated (some 9),
       StreamOp.released (some 9)] := by
  have hfr := remove_watch_frame ⟨[(4, 9)], [(1, 2)], 10⟩ 4 9 (by decide)
  exact ⟨hfr.1, hfr.2.2.1, hfr.2.2.2.1 3 (by decide), hfr.2.2.2.2.1, hfr.2.2.2.2.2⟩

/-- C8, counterexample: the two `watchdog_stop` revisions are not
equivalent.  On a thread with no run-loop entry the current revision
returns `None` with no exception, while the earlier revision extracts the
capsule pointer of `NULL`, which sets `ValueError`, and then returns
`None` with that exception pending — one call succeeds, the other fails. -/
theorem stop_revisions_differ :
    watchdog_stop initState 0 = { errorSet := false, ops := [] } ∧
    watchdog_stop_old initState 0 = { errorSet := true, ops := [] } ∧
    watchdog_stop initState 0 ≠ watchdog_stop_old initState 0 := by
  decide

/-- C8, amended: the two `watchdog_stop` revisions stop exactly the same
run loops in every state; they agree completely whenever the thread has a
run-loop entry, and on a missing entry both stop nothing and return
`None`, differing only in that the earlier revision leaves a pending
`ValueError` from `PyCapsule_GetPointer(NULL, NULL)` while the current one
returns cleanly. -/
theorem stop_revisions_related (st : ModuleState) (t : Nat) :
    (watchdog_stop st t).ops = (watchdog_stop_old st t).ops ∧
    (hasKey st.thread_to_run_loop t = true →
      watchdog_stop st t = watchdog_stop_old st t) ∧
    (hasKey st.thread_to_run_loop t = false →
      watchdog_stop st t = { errorSet := false, ops := [] } ∧
      watchdog_stop_old st t = { errorSet := true, ops := [] }) := by
  unfold watchdog_stop watchdog_stop_old hasKey
  cases hl : lookupKey st.thread_to_run_loop t <;> simp

/-- C8 witness: the amended theorem at a state with an entry for the
thread and at one without. -/
theorem stop_revisions_related_witness :
    watchdog_stop ⟨[], [(0, 42)], 0⟩ 0 = watchdog_stop_old ⟨[], [(0, 42)], 0⟩ 0 ∧
    watchdog_stop initState 0 = { errorSet := false, ops := [] } ∧
    watchdog_stop_old initState 0 = { errorSet := true, ops := [] } :=
  ⟨(stop_revisions_related ⟨[], [(0, 42)], 0⟩ 0).2.1 (by decide),
   ((stop_revisions_related initState 0).2.2 (by decide)).1,
   ((stop_revisions_related initState 0).2.2 (by decide)).2⟩

/-- C9, counterexample: a valid UTF-8 bytes path containing a NUL byte is
truncated — the produced `CFString` holds the contents only up to the
first NUL (the bytes are handed over as a NUL-terminated C string), not
the same UTF-8 contents. -/
theorem path_conversion_truncates_at_nul :
    validUTF8 [97, 0, 98] = true ∧
    PyString_AsUTF8EncodedCFStringRef (PyObj.pybytes [97, 0, 98]) =
      CFStringResult.ok [97] ∧
    ([97] : List Nat) ≠ [97, 0, 98] := by
  decide

/-- C9, amended: a path argument that is neither `str` nor `bytes` raises
`TypeError` with exactly the message `Path to watch must be a string or a
UTF-8 encoded bytes object.`; a `str` (via its UTF-8 encoding) or a valid
UTF-8 `bytes` input containing no NUL byte converts, without raising, to a
`CFString` with the same UTF-8 contents (a NUL byte would truncate the
contents at the first NUL). -/
theorem path_conversion_boundary (utf8 bs : List Nat)
    (hs : validUTF8 utf8 = true) (hs0 : (0 : Nat) ∉ utf8)
    (hb : validUTF8 bs = true) (hb0 : (0 : Nat) ∉ bs) :
    PyString_AsUTF8EncodedCFStringRef (PyObj.pystr utf8) = CFStringResult.ok utf8 ∧
    PyString_AsUTF8EncodedCFStringRef (PyObj.pybytes bs) = CFStringResult.ok bs ∧
    PyString_AsUTF8EncodedCFStringRef PyObj.other =
      CFStringResult.err PyErr.typeError
        "Path to watch must be a string or a UTF-8 encoded bytes object." := by
  refine ⟨?_, ?_, rfl⟩
  · simp [PyString_AsUTF8EncodedCFStringRef, CFStringCreateWithCString,
      cStringOf_of_no_nul utf8 hs0, hs]
  · simp [PyString_AsUTF8EncodedCFStringRef, CFStringCreateWithCString,
      cStringOf_of_no_nul bs hb0, hb]

/-- C9 witness: the boundary theorem at concrete ASCII inputs. -/
theorem path_conversion_boundary_witness :
    PyString_AsUTF8EncodedCFStringRef (PyObj.pystr [97]) = CFStringResult.ok [97] ∧
    PyString_AsUTF8EncodedCFStringRef (PyObj.pybytes [98]) = CFStringResult.ok [98] ∧
    PyString_AsUTF8EncodedCFStringRef PyObj.other =
      CFStringResult.err PyErr.typeError
        "Path to watch must be a string or a UTF-8 encoded bytes object." :=
  path_conversion_boundary [97] [98] (by decide) (by decide) (by decide) (by decide)

/-- C10: `read_events` registers the current run loop for the emitter
thread when no entry exists, and after the run loop exits it deletes the
thread's entry, so on (normal) return `thread_to_run_loop` has no entry
for that thread — whether or not one existed before the call. -/
theorem read_events_clears_entry (st : ModuleState) (t rl : Nat) :
    lookupKey (watchdog_read_events st t rl).thread_to_run_loop t = none ∧
    ((lookupKey st.thread_to_run_loop t).isNone = true →
      lookupKey (readEventsRegister st t rl).thread_to_run_loop t = some rl) := by
  constructor
  · simp [watchdog_read_events, lookupKey_eraseKey]
  · intro h
    simp [readEventsRegister, h, lookupKey_setKey_self]

/-- C10 witness: at an empty table the run loop is registered and then
cleared; at a table already holding the thread the entry is cleared too. -/
theorem read_events_clears_entry_witness :
    lookupKey (watchdog_read_events initState 3 9).thread_to_run_loop 3 = none ∧
    lookupKey (readEventsRegister initState 3 9).thread_to_run_loop 3 = some 9 ∧
    lookupKey (watchdog_read_events ⟨[], [(3, 1)], 0⟩ 3 9).thread_to_run_loop 3 = none :=
  ⟨(read_events_clears_entry initState 3 9).1,
   (read_events_clears_entry initState 3 9).2 (by decide),
   (read_events_clears_entry ⟨[], [(3, 1)], 0⟩ 3 9).1⟩

end Watchdog
